import Mathlib

/-!
Shallow embedding of the rule-based BRD analysis core (`AIService` in the
repository source): the response validity predicate, the answer normalizer,
the requirement extractor with its keyword classifiers, and the narrative
synthesizer, together with theorems checking the specification's claims
about them.
-/

/-- JavaScript answer values as they occur in form responses: absent
(`null` / `undefined`), scalar strings, finite numbers, `NaN`, booleans,
arrays of scalar strings (multi-select answers), or keyed structures.  A
keyed structure carries its pretty-printed JSON serialization
(`JSON.stringify(answer, null, 2)`) as its payload. -/
inductive Answer where
  | null : Answer
  | undef : Answer
  | str : String → Answer
  | num : Int → Answer
  | nan : Answer
  | bool : Bool → Answer
  | arr : List String → Answer
  | obj : String → Answer
deriving DecidableEq

/-- Model of the JavaScript `String(x)` conversion for the answer values
above: `String(null) = "null"`, `String(undefined) = "undefined"`, numbers
print in decimal, `NaN` prints as `"NaN"`, booleans as `"true"` / `"false"`,
arrays join their elements with `","`, and plain objects print as
`"[object Object]"`. -/
def jsToString : Answer → String
  | Answer.null => "null"
  | Answer.undef => "undefined"
  | Answer.str s => s
  | Answer.num n => toString n
  | Answer.nan => "NaN"
  | Answer.bool b => if b then "true" else "false"
  | Answer.arr xs => String.intercalate "," xs
  | Answer.obj _ => "[object Object]"

/-- Predicate `charsStartWith sub s`: true when `sub` is a prefix of `s`; inner loop
of the model of JavaScript `String.prototype.includes`. -/
def charsStartWith : List Char → List Char → Bool
  | [], _ => true
  | _ :: _, [] => false
  | a :: as, b :: bs => a == b && charsStartWith as bs

/-- Predicate `charsContain s sub`: true when `sub` occurs contiguously inside `s`. -/
def charsContain : List Char → List Char → Bool
  | [], sub => sub.isEmpty
  | b :: bs, sub => charsStartWith sub (b :: bs) || charsContain bs sub

/-- Model of JavaScript `s.includes(sub)`: substring containment. -/
def strIncludes (s sub : String) : Bool := charsContain s.toList sub.toList

/-- Model of JavaScript `s.toLowerCase()`: character-wise lower-casing (the
keyword matching in this module is ASCII-only). -/
def jsToLowerCase (s : String) : String := String.mk (s.toList.map Char.toLower)

/-- Model of JavaScript `s.padStart(len, c)`. -/
def padStart (s : String) (len : Nat) (c : Char) : String :=
  if len ≤ s.length then s else String.mk (List.replicate (len - s.length) c) ++ s

/-- Worker for `jsSetDedup`, carrying the elements already emitted. -/
def jsSetDedupAux (seen : List String) : List String → List String
  | [] => []
  | x :: xs =>
    if x ∈ seen then jsSetDedupAux seen xs else x :: jsSetDedupAux (x :: seen) xs

/-- Model of JavaScript `[...new Set(xs)]`: keeps the first occurrence of
each element, in insertion order (ECMA-262 `Set` iteration order). -/
def jsSetDedup (l : List String) : List String := jsSetDedupAux [] l

/-- Proleptic Gregorian leap-year test, as used by ECMA-262 date arithmetic. -/
def isLeapYear (y : Int) : Bool := (y % 4 == 0 && y % 100 != 0) || y % 400 == 0

/-- Number of days in month `m` (1-12) of year `y`. -/
def daysInMonth (y m : Int) : Int :=
  if m == 2 then (if isLeapYear y then 29 else 28)
  else if m == 4 || m == 6 || m == 9 || m == 11 then 30
  else 31

/-- Numeric value of a decimal digit character. -/
def digitVal (c : Char) : Int := Int.ofNat (c.toNat - '0'.toNat)

/-- Model of the host date-string recognition performed by `new Date(string)`:
the ECMA-262 Date Time String Format in its date-only `YYYY-MM-DD` form with
range-checked components; any other string yields an invalid date.  Returns
the parsed `(year, month, day)`. -/
def parseIsoDate (s : String) : Option (Int × Int × Int) :=
  match s.toList with
  | [y1, y2, y3, y4, h1, m1, m2, h2, d1, d2] =>
    if h1 == '-' && h2 == '-' && [y1, y2, y3, y4, m1, m2, d1, d2].all Char.isDigit then
      let y := 1000 * digitVal y1 + 100 * digitVal y2 + 10 * digitVal y3 + digitVal y4
      let m := 10 * digitVal m1 + digitVal m2
      let d := 10 * digitVal d1 + digitVal d2
      if 1 ≤ m && m ≤ 12 && 1 ≤ d && d ≤ daysInMonth y m then some (y, m, d) else none
    else none
  | _ => none

/-- Days since the Unix epoch of the civil date `(y, m, d)` (Gregorian). -/
def daysFromCivil (y m d : Int) : Int :=
  let yy := if m ≤ 2 then y - 1 else y
  let era := (if 0 ≤ yy then yy else yy - 399) / 400
  let yoe := yy - era * 400
  let mp := (m + 9) % 12
  let doy := (153 * mp + 2) / 5 + d - 1
  let doe := yoe * 365 + yoe / 4 - yoe / 100 + doy
  era * 146097 + doe - 719468

/-- Civil date `(y, m, d)` of the day `z` days after the Unix epoch. -/
def civilFromDays (z : Int) : Int × Int × Int :=
  let z' := z + 719468
  let era := (if 0 ≤ z' then z' else z' - 146096) / 146097
  let doe := z' - era * 146097
  let yoe := (doe - doe / 1460 + doe / 36524 - doe / 146096) / 365
  let y := yoe + era * 400
  let doy := doe - (365 * yoe + yoe / 4 - yoe / 100)
  let mp := (5 * doy + 2) / 153
  let d := doy - (153 * mp + 2) / 5 + 1
  let m := mp + (if mp < 10 then 3 else -9)
  (if m ≤ 2 then y + 1 else y, m, d)

/-- Model of the time value produced by the host primitive `new Date(x)`
(ECMA-262 section 21.4): the constructor never throws; it yields a
millisecond time value, or `none` for an invalid date (time value `NaN`).
`new Date(null)` is time value `0`, `new Date(undefined)` and
`new Date(NaN)` are invalid, booleans coerce to `0` / `1`, finite numbers
are valid when within the representable range, strings go through date
parsing (modelled for the ISO date-only form), arrays coerce to their
joined string, and plain objects coerce to `"[object Object]"`, which never
parses. -/
def jsDateTimeValue : Answer → Option Int
  | Answer.null => some 0
  | Answer.undef => none
  | Answer.nan => none
  | Answer.bool b => some (if b then 1 else 0)
  | Answer.num n => if n.natAbs ≤ 8640000000000000 then some n else none
  | Answer.str s =>
    (parseIsoDate s).map (fun t => daysFromCivil t.1 t.2.1 t.2.2 * 86400000)
  | Answer.arr xs =>
    (parseIsoDate (String.intercalate "," xs)).map
      (fun t => daysFromCivil t.1 t.2.1 t.2.2 * 86400000)
  | Answer.obj _ => none

/-- Model of the host primitive `new Date(x).toLocaleDateString()`: by
ECMA-402 this never throws and returns the string `"Invalid Date"` when the
time value is `NaN`; a valid time value renders as an en-US `M/D/YYYY` date
(rendering modelled in UTC). -/
def jsToLocaleDateString (a : Answer) : String :=
  match jsDateTimeValue a with
  | none => "Invalid Date"
  | some ms =>
    let t := civilFromDays (Int.fdiv ms 86400000)
    toString t.2.1 ++ "/" ++ toString t.2.2 ++ "/" ++ toString t.1

/-- One raw question/answer pair handed to the analysis core. -/
structure RawResponse where
  question : String
  answer : Answer
  questionType : String
deriving DecidableEq

/-- The extractor's output record (interface `RequirementItem`). -/
structure RequirementItem where
  id : String
  category : String
  priority : String
  description : String
  acceptanceCriteria : List String
  businessValue : String
  technicalNotes : String
deriving DecidableEq

/-- The facade's input (interface `AIAnalysisRequest`). -/
structure AIAnalysisRequest where
  formTitle : String
  clientName : String
  formDescription : Option String
  responses : List RawResponse
deriving DecidableEq

/-- The facade's aggregate output (interface `BRDAnalysis`). -/
structure BRDAnalysis where
  executiveSummary : String
  projectOverview : String
  businessObjectives : List String
  stakeholders : List String
  requirements : List RequirementItem
  assumptions : List String
  constraints : List String
  risks : List String
  successCriteria : List String
deriving DecidableEq

/-- Translation of `isValidResponse` from `AIService`: `if (!answer) return false` (JavaScript
truthiness, resolved per value shape), `if (answer === '') return false`,
`if (Array.isArray(answer) && answer.length === 0) return false`,
`if (answer === 'No answer provided') return false`, else `true`. -/
def isValidResponse : Answer → Bool
  | Answer.null => false
  | Answer.undef => false
  | Answer.nan => false
  | Answer.bool b => b
  | Answer.num n => if n == 0 then false else true
  | Answer.str s =>
    if s == "" then false
    else if s == "No answer provided" then false
    else true
  | Answer.arr xs => if xs.length == 0 then false else true
  | Answer.obj _ => true

/-- Translation of `categorizeRequirement` from `AIService`: an ordered if-chain of keyword
substring tests against the lower-cased question, with fallback
"General Requirements". -/
def categorizeRequirement (question : String) (questionType : String) : String :=
  let questionLower := jsToLowerCase question
  if strIncludes questionLower "function" || strIncludes questionLower "feature" ||
      strIncludes questionLower "capability" || strIncludes questionLower "what should" ||
      strIncludes questionLower "how should" || strIncludes questionLower "behavior" then
    "Functional Requirements"
  else if strIncludes questionLower "performance" || strIncludes questionLower "speed" ||
      strIncludes questionLower "load" || strIncludes questionLower "response time" ||
      strIncludes questionLower "throughput" || strIncludes questionLower "scalability" then
    "Performance Requirements"
  else if strIncludes questionLower "security" || strIncludes questionLower "authentication" ||
      strIncludes questionLower "authorization" || strIncludes questionLower "access" ||
      strIncludes questionLower "permission" || strIncludes questionLower "privacy" then
    "Security Requirements"
  else if strIncludes questionLower "interface" || strIncludes questionLower "ui" ||
      strIncludes questionLower "ux" || strIncludes questionLower "design" ||
      strIncludes questionLower "layout" || strIncludes questionLower "appearance" then
    "User Interface Requirements"
  else if strIncludes questionLower "integration" || strIncludes questionLower "api" ||
      strIncludes questionLower "external" || strIncludes questionLower "third-party" ||
      strIncludes questionLower "connect" || strIncludes questionLower "sync" then
    "Integration Requirements"
  else if strIncludes questionLower "data" || strIncludes questionLower "database" ||
      strIncludes questionLower "storage" || strIncludes questionLower "backup" ||
      strIncludes questionLower "migration" || strIncludes questionLower "import" then
    "Data Requirements"
  else if strIncludes questionLower "process" || strIncludes questionLower "workflow" ||
      strIncludes questionLower "business" || strIncludes questionLower "procedure" ||
      strIncludes questionLower "approval" || strIncludes questionLower "review" then
    "Business Process Requirements"
  else if strIncludes questionLower "compliance" || strIncludes questionLower "regulation" ||
      strIncludes questionLower "standard" || strIncludes questionLower "audit" ||
      strIncludes questionLower "legal" || strIncludes questionLower "policy" then
    "Compliance Requirements"
  else
    "General Requirements"

/-- The high-priority keyword array of `determinePriority`. -/
def highPriorityKeywords : List String :=
  ["critical", "essential", "must", "required", "mandatory", "urgent",
   "important", "vital", "crucial", "necessary", "core", "primary"]

/-- The low-priority keyword array of `determinePriority`. -/
def lowPriorityKeywords : List String :=
  ["nice to have", "optional", "future", "enhancement", "wish",
   "would like", "could", "maybe", "eventually", "later"]

/-- The condition `typeof answer === 'string' && answer.length > 100`. -/
def isLongStringAnswer : Answer → Bool
  | Answer.str s => if 100 < s.length then true else false
  | _ => false

/-- The condition `Array.isArray(answer) && answer.length > 3`. -/
def isBigArrayAnswer : Answer → Bool
  | Answer.arr xs => if 3 < xs.length then true else false
  | _ => false

/-- Translation of `determinePriority` from `AIService`: the strict fallthrough chain over
question keywords, then answer keywords, then the length heuristics. -/
def determinePriority (question : String) (answer : Answer) : String :=
  let questionLower := jsToLowerCase question
  let answerStr := jsToLowerCase (jsToString answer)
  if highPriorityKeywords.any (fun keyword => strIncludes questionLower keyword) then "High"
  else if lowPriorityKeywords.any (fun keyword => strIncludes questionLower keyword) then "Low"
  else if highPriorityKeywords.any (fun keyword => strIncludes answerStr keyword) then "High"
  else if lowPriorityKeywords.any (fun keyword => strIncludes answerStr keyword) then "Low"
  else if isLongStringAnswer answer then "High"
  else if isBigArrayAnswer answer then "High"
  else "Medium"

/-- Translation of `formatAnswer` from `AIService`: null and undefined map to the sentinel
text, arrays join with ", ", date questions go through the host date
rendering, remaining objects print their JSON serialization, and all other
scalars print with `String(answer)`. -/
def formatAnswer (answer : Answer) (type : String) : String :=
  match answer with
  | Answer.null => "No answer provided"
  | Answer.undef => "No answer provided"
  | Answer.arr xs => String.intercalate ", " xs
  | a =>
    if type == "date" then
      jsToLocaleDateString a
    else
      match a with
      | Answer.obj json => json
      | b => jsToString b

/-- Whether the answer value is a JavaScript array (`Array.isArray`). -/
def isArrayAnswer : Answer → Bool
  | Answer.arr _ => true
  | _ => false

/-- The elements of an array answer (arbitrary for non-arrays). -/
def arrayElems : Answer → List String
  | Answer.arr xs => xs
  | _ => []

/-- The transformation `jsToLowerCase questionCase().replace(/[?:]/g, '')` applied
to an already lower-cased question. -/
def stripQuestionChars (s : String) : String :=
  String.mk (s.toList.filter (fun c => c != '?' && c != ':'))

/-- Translation of `formatRequirementDescription` from `AIService`. -/
def formatRequirementDescription (question : String) (answer : Answer) (questionType : String) : String :=
  let formattedAnswer := formatAnswer answer questionType
  if questionType == "checkbox" && isArrayAnswer answer then
    "The system shall support " ++ stripQuestionChars (jsToLowerCase question) ++
      " with the following capabilities: " ++ formattedAnswer
  else if questionType == "radio" || questionType == "select" then
    "For " ++ stripQuestionChars (jsToLowerCase question) ++ ", the system shall implement: " ++
      formattedAnswer
  else if questionType == "number" then
    "The system shall meet the requirement for " ++ stripQuestionChars (jsToLowerCase question) ++
      " with a value of " ++ formattedAnswer
  else if questionType == "date" then
    "The system shall handle " ++ stripQuestionChars (jsToLowerCase question) ++
      " with the specified date: " ++ formattedAnswer
  else
    "Regarding " ++ stripQuestionChars (jsToLowerCase question) ++ ": " ++ formattedAnswer

/-- Translation of `generateAcceptanceCriteria` from `AIService`: the three base pushes,
then the type-specific pushes, then the three independent keyword-gated
pushes, in source order. -/
def generateAcceptanceCriteria (question : String) (answer : Answer) (questionType : String) : List String :=
  let questionLower := jsToLowerCase question
  let criteria : List String :=
    ["Requirement is clearly defined and testable",
     "Implementation meets specified functionality",
     "User acceptance testing passes successfully"]
  let criteria :=
    if questionType == "checkbox" && isArrayAnswer answer then
      criteria ++ (arrayElems answer).map (fun item => "System successfully supports: " ++ item) ++
        ["All selected options are fully functional"]
    else if questionType == "number" then
      criteria ++ ["Numeric value validation is implemented (" ++ jsToString answer ++ ")",
                   "Input constraints are properly enforced"]
    else if questionType == "email" then
      criteria ++ ["Email format validation is implemented",
                   "Invalid email addresses are rejected"]
    else if questionType == "date" then
      criteria ++ ["Date picker functionality is available",
                   "Date format validation is implemented",
                   "Invalid dates are handled appropriately"]
    else criteria
  let criteria :=
    if strIncludes questionLower "security" then
      criteria ++ ["Security requirements are met and verified",
                   "Access controls are properly implemented"]
    else criteria
  let criteria :=
    if strIncludes questionLower "performance" then
      criteria ++ ["Performance benchmarks are met",
                   "Load testing validates performance requirements"]
    else criteria
  let criteria :=
    if strIncludes questionLower "integration" then
      criteria ++ ["Integration points are tested and functional",
                   "Data flow between systems is verified"]
    else criteria
  criteria

/-- Translation of `assessBusinessValue` from `AIService`. -/
def assessBusinessValue (question : String) (answer : Answer) : String :=
  let questionLower := jsToLowerCase question
  let answerStr := jsToLowerCase (jsToString answer)
  if strIncludes questionLower "revenue" || strIncludes questionLower "profit" ||
      strIncludes questionLower "cost" || strIncludes answerStr "money" then
    "High - Direct financial impact on business operations"
  else if strIncludes questionLower "customer" || strIncludes questionLower "user" ||
      strIncludes questionLower "client" || strIncludes answerStr "satisfaction" then
    "High - Improves customer experience and satisfaction"
  else if strIncludes questionLower "efficiency" || strIncludes questionLower "productivity" ||
      strIncludes questionLower "automation" || strIncludes answerStr "faster" then
    "Medium - Enhances operational efficiency"
  else if strIncludes questionLower "compliance" || strIncludes questionLower "regulation" ||
      strIncludes questionLower "legal" || strIncludes answerStr "required" then
    "High - Ensures regulatory compliance and risk mitigation"
  else if strIncludes questionLower "reporting" || strIncludes questionLower "analytics" ||
      strIncludes questionLower "insight" || strIncludes answerStr "decision" then
    "Medium - Supports data-driven decision making"
  else
    "Medium - Supports business objectives and user needs"

/-- Translation of `generateTechnicalNotes` from `AIService`. -/
def generateTechnicalNotes (question : String) (answer : Answer) (questionType : String) : String :=
  let questionLower := jsToLowerCase question
  let notes : List String := []
  let notes :=
    if questionType == "checkbox" || questionType == "radio" then
      notes ++ ["Consider using enumeration or configuration-driven approach"]
    else notes
  let notes :=
    if questionType == "number" then
      notes ++ ["Implement proper input validation and range checking"]
    else notes
  let notes :=
    if questionType == "date" then
      notes ++ ["Consider timezone handling and date format localization"]
    else notes
  let notes :=
    if questionType == "email" then
      notes ++ ["Implement RFC-compliant email validation"]
    else notes
  let notes :=
    if strIncludes questionLower "integration" then
      notes ++ ["Design with API versioning and error handling in mind"]
    else notes
  let notes :=
    if strIncludes questionLower "security" then
      notes ++ ["Follow security best practices and conduct security review"]
    else notes
  let notes :=
    if strIncludes questionLower "performance" then
      notes ++ ["Consider caching strategies and performance monitoring"]
    else notes
  String.intercalate "; " notes

/-- The `RequirementItem` built by `extractRequirements` for one valid
response, given the current value of the `reqId` counter. -/
def mkRequirement (reqId : Nat) (response : RawResponse) : RequirementItem :=
  { id := "REQ-" ++ padStart (toString reqId) 3 '0'
    category := categorizeRequirement response.question response.questionType
    priority := determinePriority response.question response.answer
    description := formatRequirementDescription response.question response.answer response.questionType
    acceptanceCriteria := generateAcceptanceCriteria response.question response.answer response.questionType
    businessValue := assessBusinessValue response.question response.answer
    technicalNotes := generateTechnicalNotes response.question response.answer response.questionType }

/-- The `forEach` loop of `extractRequirements`, with the mutable `reqId`
counter made an explicit argument. -/
def extractRequirementsAux (reqId : Nat) : List RawResponse → List RequirementItem
  | [] => []
  | response :: rest =>
    if isValidResponse response.answer then
      mkRequirement reqId response :: extractRequirementsAux (reqId + 1) rest
    else
      extractRequirementsAux reqId rest

/-- Translation of `extractRequirements` from `AIService`: `reqId` starts at 1. -/
def extractRequirements (responses : List RawResponse) : List RequirementItem :=
  extractRequirementsAux 1 responses

/-- The concatenated lower-cased text
`responses.map(r => question + " " + answer).join(' ').toLowerCase()` used
by the synthesizer functions. -/
def responsesText (responses : List RawResponse) : String :=
  jsToLowerCase
    (String.intercalate " " (responses.map (fun r => r.question ++ " " ++ jsToString r.answer)))

/-- The variant of the concatenated text used by
`identifyBusinessObjectives`, which prepends the form title. -/
def objectivesAllText (responses : List RawResponse) (formTitle : String) : String :=
  jsToLowerCase (String.intercalate " "
    (formTitle :: responses.map (fun r => r.question ++ " " ++ jsToString r.answer)))

/-- The `objectiveKeywords` table of `identifyBusinessObjectives`, in its
source enumeration order. -/
def objectiveKeywords : List (String × String) :=
  [("efficiency", "Improve operational efficiency and streamline processes"),
   ("customer", "Enhance customer experience and satisfaction"),
   ("automation", "Automate manual processes to reduce errors and save time"),
   ("integration", "Integrate systems for better data flow and coordination"),
   ("reporting", "Provide comprehensive reporting and analytics capabilities"),
   ("security", "Strengthen security measures and ensure data protection"),
   ("scalability", "Build scalable solutions to support business growth"),
   ("compliance", "Ensure regulatory compliance and risk management")]

/-- The three default objectives pushed when no theme keyword matched. -/
def defaultObjectives : List String :=
  ["Deliver a solution that meets specified requirements",
   "Ensure user satisfaction and system usability",
   "Maintain system reliability and performance"]

/-- Translation of `identifyBusinessObjectives` from `AIService`: theme scan in table
order, default objectives when nothing matched, then `[...new Set(...)]`. -/
def identifyBusinessObjectives (responses : List RawResponse) (formTitle : String) : List String :=
  let allText := objectivesAllText responses formTitle
  let objectives := (objectiveKeywords.filter (fun p => strIncludes allText p.1)).map (fun p => p.2)
  let objectives := if objectives.length == 0 then objectives ++ defaultObjectives else objectives
  jsSetDedup objectives

/-- Translation of `identifyStakeholders` from `AIService`. -/
def identifyStakeholders (responses : List RawResponse) (clientName : String) : List String :=
  let stakeholders :=
    [clientName ++ " - Primary Client",
     "Project Manager - Overall project coordination",
     "Business Analyst - Requirements analysis and documentation",
     "Development Team - System implementation",
     "Quality Assurance Team - Testing and validation",
     "End Users - System users and beneficiaries"]
  let allText := responsesText responses
  let stakeholders :=
    if strIncludes allText "admin" || strIncludes allText "administrator" then
      stakeholders ++ ["System Administrator - System maintenance and configuration"]
    else stakeholders
  let stakeholders :=
    if strIncludes allText "manager" || strIncludes allText "management" then
      stakeholders ++ ["Management Team - Strategic oversight and approval"]
    else stakeholders
  let stakeholders :=
    if strIncludes allText "customer" || strIncludes allText "client" then
      stakeholders ++ ["Customer Support Team - User assistance and feedback"]
    else stakeholders
  let stakeholders :=
    if strIncludes allText "finance" || strIncludes allText "accounting" then
      stakeholders ++ ["Finance Team - Budget and financial oversight"]
    else stakeholders
  stakeholders

/-- Translation of `generateAssumptions` from `AIService`. -/
def generateAssumptions (responses : List RawResponse) : List String :=
  let assumptions :=
    ["All required resources and personnel will be available as planned",
     "Stakeholders will provide timely feedback and approvals",
     "Technical infrastructure meets minimum system requirements",
     "User training will be provided before system deployment",
     "Data migration (if required) will be completed successfully"]
  let allText := responsesText responses
  let assumptions :=
    if strIncludes allText "integration" then
      assumptions ++ ["Third-party systems will be available for integration testing",
                      "API documentation and access will be provided by external vendors"]
    else assumptions
  let assumptions :=
    if strIncludes allText "data" || strIncludes allText "database" then
      assumptions ++ ["Data quality meets acceptable standards for migration",
                      "Backup and recovery procedures are in place"]
    else assumptions
  let assumptions :=
    if strIncludes allText "mobile" || strIncludes allText "app" then
      assumptions ++ ["Mobile device compatibility requirements are clearly defined"]
    else assumptions
  assumptions

/-- Translation of `identifyConstraints` from `AIService`. -/
def identifyConstraints (responses : List RawResponse) : List String :=
  let constraints :=
    ["Project must be completed within approved budget",
     "Solution must comply with existing security policies",
     "System must integrate with current technology stack",
     "Implementation must minimize disruption to ongoing operations"]
  let allText := responsesText responses
  let constraints :=
    if strIncludes allText "budget" || strIncludes allText "cost" then
      constraints ++ ["Budget limitations may impact scope and timeline"]
    else constraints
  let constraints :=
    if strIncludes allText "timeline" || strIncludes allText "deadline" then
      constraints ++ ["Fixed timeline requirements must be met"]
    else constraints
  let constraints :=
    if strIncludes allText "legacy" || strIncludes allText "existing" then
      constraints ++ ["Must maintain compatibility with legacy systems"]
    else constraints
  let constraints :=
    if strIncludes allText "regulation" || strIncludes allText "compliance" then
      constraints ++ ["Must adhere to regulatory and compliance requirements"]
    else constraints
  constraints

/-- Translation of `assessRisks` from `AIService`. -/
def assessRisks (responses : List RawResponse) : List String :=
  let risks :=
    ["Technical complexity may lead to implementation delays",
     "Scope creep could impact timeline and budget",
     "Integration challenges with existing systems",
     "User adoption may be slower than anticipated",
     "Data quality issues could affect system performance"]
  let allText := responsesText responses
  let risks :=
    if strIncludes allText "integration" || strIncludes allText "api" then
      risks ++ ["Third-party system dependencies may cause integration delays"]
    else risks
  let risks :=
    if strIncludes allText "performance" || strIncludes allText "load" then
      risks ++ ["Performance requirements may not be met under high load"]
    else risks
  let risks :=
    if strIncludes allText "security" then
      risks ++ ["Security vulnerabilities could compromise system integrity"]
    else risks
  let risks :=
    if strIncludes allText "data" || strIncludes allText "migration" then
      risks ++ ["Data migration complexity may cause project delays"]
    else risks
  risks

/-- Translation of `defineSuccessCriteria` from `AIService`. -/
def defineSuccessCriteria (responses : List RawResponse) (objectives : List String) : List String :=
  let criteria :=
    ["All functional requirements are implemented and tested",
     "System performance meets specified benchmarks",
     "User acceptance testing is completed successfully",
     "System is deployed without critical issues",
     "User training is completed and feedback is positive"]
  objectives.foldl
    (fun acc objective =>
      let acc :=
        if strIncludes objective "efficiency" then
          acc ++ ["Process efficiency improvements are measurable and documented"]
        else acc
      let acc :=
        if strIncludes objective "customer" then
          acc ++ ["Customer satisfaction scores meet or exceed targets"]
        else acc
      let acc :=
        if strIncludes objective "automation" then
          acc ++ ["Manual process reduction is achieved as specified"]
        else acc
      acc)
    criteria

/-- Translation of `generateExecutiveSummary` from `AIService`: the three-paragraph template
with the exact counts spliced in. -/
def generateExecutiveSummary (formTitle clientName : String)
    (requirements : List RequirementItem) (objectives : List String) : String :=
  let totalReqs := requirements.length
  let highPriorityReqs := (requirements.filter (fun r => r.priority == "High")).length
  let categories := jsSetDedup (requirements.map (fun r => r.category))
  "This Business Requirements Document (BRD) presents a comprehensive analysis of the " ++
    formTitle ++ " project for " ++ clientName ++
    ". Through systematic requirements gathering and analysis, we have identified " ++
    toString totalReqs ++ " distinct requirements across " ++ toString categories.length ++
    " major categories. Of these, " ++ toString highPriorityReqs ++
    " are classified as high priority and require immediate attention during the implementation phase." ++
    "\n\n" ++ "The project aims to " ++
    jsToLowerCase (String.intercalate " and " (objectives.take 2)) ++
    ". This document serves as the foundation for system design, development planning, and project execution. All requirements have been analyzed for business value, technical feasibility, and implementation priority to ensure successful project delivery." ++
    "\n\n" ++ "Key focus areas include " ++ String.intercalate ", " (categories.take 3) ++
    ", which represent the core functional domains of the proposed solution. The requirements outlined in this document will guide the development team in creating a solution that meets business objectives while maintaining technical excellence and user satisfaction."

/-- Translation of `generateProjectOverview` from `AIService`: `if (formDescription)` is
JavaScript truthiness, so an absent or empty description selects the
response-count sentence; `responses?.length || 0` is the response count. -/
def generateProjectOverview (formTitle : String) (formDescription : Option String)
    (responses : List RawResponse) : String :=
  let baseOverview := "The " ++ formTitle ++
    " project represents a strategic initiative designed to address specific business needs and operational requirements. "
  let description := formDescription.getD ""
  if description != "" then
    baseOverview ++ description ++
      " This project will deliver a comprehensive solution that aligns with business objectives and provides measurable value to stakeholders."
  else
    baseOverview ++ "Based on comprehensive requirements gathering involving " ++
      toString responses.length ++
      " detailed response(s), this project will deliver a tailored solution that addresses identified business needs and operational challenges. The solution will be designed to provide immediate value while supporting long-term business growth and scalability."

/-- Translation of `performIntelligentAnalysis` from `AIService`: the full pipeline. -/
def performIntelligentAnalysis (data : AIAnalysisRequest) : BRDAnalysis :=
  let requirements := extractRequirements data.responses
  let businessObjectives := identifyBusinessObjectives data.responses data.formTitle
  { executiveSummary :=
      generateExecutiveSummary data.formTitle data.clientName requirements businessObjectives
    projectOverview := generateProjectOverview data.formTitle data.formDescription data.responses
    businessObjectives := businessObjectives
    stakeholders := identifyStakeholders data.responses data.clientName
    requirements := requirements
    assumptions := generateAssumptions data.responses
    constraints := identifyConstraints data.responses
    risks := assessRisks data.responses
    successCriteria := defineSuccessCriteria data.responses businessObjectives }

/-- The only mutable state of the `AIService` class: the private static
`instance` field of the singleton pattern.  `AIService` instances declare no
fields of their own, so an instance is modelled as `Unit`. -/
structure AIServiceState where
  currentInstance : Option Unit
deriving DecidableEq

/-- Translation of `AIService.getInstance`: lazily create the singleton and return it,
threading the static field explicitly. -/
def getInstance : AIServiceState → AIServiceState × Unit
  | { currentInstance := none } => ({ currentInstance := some () }, ())
  | { currentInstance := some i } => ({ currentInstance := some i }, i)

/-- Translation of `AIService.analyzeBRD`: delegates to `performIntelligentAnalysis`; the
receiver instance carries no data. -/
def analyzeBRD (inst : Unit) (data : AIAnalysisRequest) : BRDAnalysis :=
  performIntelligentAnalysis data

/-- A prefix test succeeds exactly when the searched list extends the
pattern. -/
theorem charsStartWith_iff (sub : List Char) : ∀ s : List Char,
    charsStartWith sub s = true ↔ ∃ t, s = sub ++ t := by
  induction sub with
  | nil => intro s; simp [charsStartWith]
  | cons a as ih =>
    intro s
    cases s with
    | nil => simp [charsStartWith]
    | cons b bs =>
      simp only [charsStartWith, Bool.and_eq_true, beq_iff_eq, ih, List.cons_append,
        List.cons.injEq]
      constructor
      · rintro ⟨rfl, t, rfl⟩; exact ⟨t, rfl, rfl⟩
      · rintro ⟨t, rfl, rfl⟩; exact ⟨rfl, t, rfl⟩

/-- Substring containment succeeds exactly when the pattern occurs as a
contiguous segment. -/
theorem charsContain_iff : ∀ (s sub : List Char),
    charsContain s sub = true ↔ ∃ p q, s = p ++ (sub ++ q) := by
  intro s
  induction s with
  | nil =>
    intro sub
    simp only [charsContain, List.isEmpty_iff]
    constructor
    · rintro rfl; exact ⟨[], [], rfl⟩
    · rintro ⟨p, q, h⟩
      cases p <;> simp_all
  | cons b bs ih =>
    intro sub
    simp only [charsContain, Bool.or_eq_true, charsStartWith_iff, ih]
    constructor
    · rintro (⟨t, ht⟩ | ⟨p, q, hpq⟩)
      · exact ⟨[], t, by simpa using ht⟩
      · exact ⟨b :: p, q, by simp [hpq]⟩
    · rintro ⟨p, q, h⟩
      cases p with
      | nil => exact Or.inl ⟨q, by simpa using h⟩
      | cons x xs =>
        right
        injection h with h1 h2
        exact ⟨xs, q, h2⟩

/-- A string contains any segment exhibited by a decomposition of its
character list. -/
theorem strIncludes_of_toList (s pre mid post : String)
    (h : s.toList = pre.toList ++ (mid.toList ++ post.toList)) :
    strIncludes s mid = true :=
  (charsContain_iff s.toList mid.toList).mpr ⟨pre.toList, post.toList, h⟩

/-- Substring containment is transitive. -/
theorem strIncludes_trans {a b c : String} (h1 : strIncludes a b = true)
    (h2 : strIncludes b c = true) : strIncludes a c = true := by
  rcases (charsContain_iff _ _).mp h1 with ⟨p, q, hpq⟩
  rcases (charsContain_iff _ _).mp h2 with ⟨p2, q2, hpq2⟩
  refine (charsContain_iff _ _).mpr ⟨p ++ p2, q2 ++ q, ?_⟩
  rw [hpq, hpq2]
  simp [List.append_assoc]

/-- Membership in the deduplication worker. -/
theorem mem_jsSetDedupAux (x : String) (l : List String) : ∀ seen,
    x ∈ jsSetDedupAux seen l ↔ x ∈ l ∧ x ∉ seen := by
  induction l with
  | nil => intro seen; simp [jsSetDedupAux]
  | cons y ys ih =>
    intro seen
    by_cases hy : y ∈ seen
    · simp only [jsSetDedupAux, if_pos hy, ih, List.mem_cons]
      constructor
      · rintro ⟨h1, h2⟩; exact ⟨Or.inr h1, h2⟩
      · rintro ⟨rfl | h1, h2⟩
        · exact absurd hy h2
        · exact ⟨h1, h2⟩
    · simp only [jsSetDedupAux, if_neg hy, List.mem_cons, ih]
      constructor
      · rintro (rfl | ⟨h1, h2⟩)
        · exact ⟨Or.inl rfl, hy⟩
        · simp only [List.mem_cons, not_or] at h2
          exact ⟨Or.inr h1, h2.2⟩
      · rintro ⟨rfl | h1, h2⟩
        · exact Or.inl rfl
        · by_cases hxy : x = y
          · exact Or.inl hxy
          · exact Or.inr ⟨h1, by simp [List.mem_cons, hxy, h2]⟩

/-- The deduplication worker always emits a duplicate-free list. -/
theorem nodup_jsSetDedupAux (l : List String) : ∀ seen,
    (jsSetDedupAux seen l).Nodup := by
  induction l with
  | nil => intro seen; simp [jsSetDedupAux]
  | cons y ys ih =>
    intro seen
    by_cases hy : y ∈ seen
    · simpa [jsSetDedupAux, if_pos hy] using ih seen
    · simp only [jsSetDedupAux, if_neg hy, List.nodup_cons]
      refine ⟨?_, ih _⟩
      intro hmem
      rcases (mem_jsSetDedupAux y ys (y :: seen)).mp hmem with ⟨-, hns⟩
      exact hns (List.mem_cons_self y seen)

/-- On a duplicate-free input disjoint from `seen`, the worker is the
identity: insertion order is preserved. -/
theorem jsSetDedupAux_eq_self (l : List String) : ∀ seen, l.Nodup →
    (∀ x ∈ l, x ∉ seen) → jsSetDedupAux seen l = l := by
  induction l with
  | nil => intro seen _ _; rfl
  | cons y ys ih =>
    intro seen hnd hdisj
    have hy : y ∉ seen := hdisj y (List.mem_cons_self y ys)
    simp only [jsSetDedupAux, if_neg hy, List.cons.injEq, true_and]
    apply ih
    · exact hnd.of_cons
    · intro x hx hmem
      rcases List.mem_cons.mp hmem with rfl | hs
      · exact (List.nodup_cons.mp hnd).1 hx
      · exact hdisj x (List.mem_cons_of_mem _ hx) hs

/-- Lemma: `[...new Set(xs)]` is the identity on a duplicate-free list. -/
theorem jsSetDedup_eq_self {l : List String} (h : l.Nodup) : jsSetDedup l = l :=
  jsSetDedupAux_eq_self l [] h (fun x _ => List.not_mem_nil x)

/-- Lemma: `[...new Set(xs)]` never emits duplicates. -/
theorem nodup_jsSetDedup (l : List String) : (jsSetDedup l).Nodup :=
  nodup_jsSetDedupAux l []

/-- Lemma: `[...new Set(xs)]` preserves membership. -/
theorem mem_jsSetDedup (x : String) (l : List String) :
    x ∈ jsSetDedup l ↔ x ∈ l := by
  simpa using mem_jsSetDedupAux x l []

/-- The length of `[...new Set(xs)]` is the number of distinct elements. -/
theorem length_jsSetDedup_eq_dedup (l : List String) :
    (jsSetDedup l).length = l.dedup.length := by
  have hperm : (jsSetDedup l).Perm l.dedup := by
    rw [List.perm_ext_iff_of_nodup (nodup_jsSetDedup l) (List.nodup_dedup l)]
    intro a
    rw [mem_jsSetDedup, List.mem_dedup]
  exact hperm.length_eq

/-- The extraction loop keeps exactly the valid responses, in order, and
numbers them consecutively from the initial counter value. -/
theorem extractRequirementsAux_eq (rs : List RawResponse) : ∀ n : Nat,
    extractRequirementsAux n rs =
      (List.enumFrom n (rs.filter (fun r => isValidResponse r.answer))).map
        (fun p => mkRequirement p.1 p.2) := by
  induction rs with
  | nil => intro n; rfl
  | cons r rest ih =>
    intro n
    by_cases h : isValidResponse r.answer
    · simp [extractRequirementsAux, h, List.filter_cons, List.enumFrom, ih]
    · simp [extractRequirementsAux, h, List.filter_cons, ih]

/-- The ordered table of the 8 keyword groups of `categorizeRequirement`,
paired with the category each one selects, in source order. -/
def categoryTable : List (List String × String) :=
  [(["function", "feature", "capability", "what should", "how should", "behavior"],
    "Functional Requirements"),
   (["performance", "speed", "load", "response time", "throughput", "scalability"],
    "Performance Requirements"),
   (["security", "authentication", "authorization", "access", "permission", "privacy"],
    "Security Requirements"),
   (["interface", "ui", "ux", "design", "layout", "appearance"],
    "User Interface Requirements"),
   (["integration", "api", "external", "third-party", "connect", "sync"],
    "Integration Requirements"),
   (["data", "database", "storage", "backup", "migration", "import"],
    "Data Requirements"),
   (["process", "workflow", "business", "procedure", "approval", "review"],
    "Business Process Requirements"),
   (["compliance", "regulation", "standard", "audit", "legal", "policy"],
    "Compliance Requirements")]

/-- First-match lookup over a keyword-group table, with the fallback
category.  This renders the specification's reading of
`categorizeRequirement` as an ordered `(keyword set, label)` scan. -/
def lookupCat (table : List (List String × String)) (question : String) : String :=
  match table.find? (fun p => p.1.any (fun k => strIncludes (jsToLowerCase question) k)) with
  | some p => p.2
  | none => "General Requirements"

/-- First-match category lookup over the full 8-group table. -/
def lookupFirstCategory (question : String) : String := lookupCat categoryTable question

theorem lookupCat_nil (question : String) : lookupCat [] question = "General Requirements" := rfl

theorem lookupCat_cons (ks : List String) (lbl : String)
    (rest : List (List String × String)) (question : String) :
    lookupCat ((ks, lbl) :: rest) question =
      if ks.any (fun k => strIncludes (jsToLowerCase question) k) then lbl
      else lookupCat rest question := by
  by_cases h : ks.any (fun k => strIncludes (jsToLowerCase question) k)
  · simp [lookupCat, List.find?, h]
  · simp only [Bool.not_eq_true] at h
    simp [lookupCat, List.find?, h]

/-- C3: `isValidResponse` returns false exactly for null, undefined, the
number 0, `NaN`, boolean false, the empty string, the empty array, and the
sentinel string "No answer provided"; it returns true for every other
answer value. -/
theorem c3_isValidResponse_characterization (a : Answer) :
    isValidResponse a = false ↔
      (a = Answer.null ∨ a = Answer.undef ∨ a = Answer.num 0 ∨
       a = Answer.bool false ∨ a = Answer.str "" ∨ a = Answer.nan ∨
       a = Answer.arr [] ∨ a = Answer.str "No answer provided") := by
  cases a with
  | null => simp [isValidResponse]
  | undef => simp [isValidResponse]
  | nan => simp [isValidResponse]
  | bool b => cases b <;> simp [isValidResponse]
  | num n =>
    by_cases h : n = 0 <;> simp [isValidResponse, h]
  | str s =>
    by_cases h1 : s = "" <;> by_cases h2 : s = "No answer provided" <;>
      simp [isValidResponse, h1, h2]
  | arr xs =>
    cases xs <;> simp [isValidResponse]
  | obj j => simp [isValidResponse]

/-- C6: `formatAnswer` maps null and undefined to "No answer provided" and
maps every array answer to its elements joined with ", ", in order, for
every question type (including "date"); the empty array yields "" and
`["a","b","c"]` yields "a, b, c". -/
theorem c6_formatAnswer_null_and_arrays (type : String) (xs : List String) :
    formatAnswer Answer.null type = "No answer provided" ∧
    formatAnswer Answer.undef type = "No answer provided" ∧
    formatAnswer (Answer.arr xs) type = String.intercalate ", " xs ∧
    formatAnswer (Answer.arr []) type = "" ∧
    formatAnswer (Answer.arr ["a", "b", "c"]) type = "a, b, c" :=
  ⟨rfl, rfl, rfl, rfl, rfl⟩

/-- C2 (code evaluation): on the date question type, a string answer that is
not a parsable calendar date makes `formatAnswer` return the host string
"Invalid Date" — not the answer's plain string form `String(answer)` — since
`new Date(string)` never throws (ECMA-262) and `toLocaleDateString` on an
invalid date returns "Invalid Date" (ECMA-402), leaving the catch-fallback
`String(answer)` unreachable. -/
theorem c2_date_branch_behavior :
    formatAnswer (Answer.str "not-a-date") "date" = "Invalid Date" ∧
    jsToString (Answer.str "not-a-date") = "not-a-date" ∧
    "Invalid Date" ≠ "not-a-date" :=
  ⟨rfl, rfl, by decide⟩

/-- C4: `categorizeRequirement` agrees, for every question and question
type, with a first-match scan of the 8 keyword groups in the fixed order
Functional, Performance, Security, User Interface, Integration, Data,
Business Process, Compliance (falling back to "General Requirements"), and
on the question "What is critical for security access control?" it returns
"Security Requirements". -/
theorem c4_categorize_first_match (question questionType : String) :
    categorizeRequirement question questionType = lookupFirstCategory question ∧
    categorizeRequirement "What is critical for security access control?" "radio" =
      "Security Requirements" := by
  constructor
  · rw [lookupFirstCategory, categoryTable,
      lookupCat_cons, lookupCat_cons, lookupCat_cons, lookupCat_cons,
      lookupCat_cons, lookupCat_cons, lookupCat_cons, lookupCat_cons, lookupCat_nil]
    simp only [categorizeRequirement, List.any_cons, List.any_nil, Bool.or_false,
      Bool.or_assoc]
  · decide

/-- C5: `determinePriority` is the strict fallthrough chain — "High" iff an
urgency keyword is in the question, or (no deferral keyword in the question
and) an urgency keyword is in the stringified answer, or (no deferral
keyword anywhere earlier and) the answer is a string longer than 100
characters or an array with more than 3 elements; "Low" iff no earlier
"High" tier fired and a deferral keyword matched; "Medium" iff nothing
matched at all. -/
theorem c5_determinePriority_fallthrough (question : String) (answer : Answer) :
    (determinePriority question answer = "High" ↔
      (highPriorityKeywords.any (fun keyword => strIncludes (jsToLowerCase question) keyword) = true ∨
       (lowPriorityKeywords.any (fun keyword => strIncludes (jsToLowerCase question) keyword) ≠ true ∧
        (highPriorityKeywords.any (fun keyword => strIncludes (jsToLowerCase (jsToString answer)) keyword) = true ∨
         (lowPriorityKeywords.any (fun keyword => strIncludes (jsToLowerCase (jsToString answer)) keyword) ≠ true ∧
          (isLongStringAnswer answer = true ∨ isBigArrayAnswer answer = true)))))) ∧
    (determinePriority question answer = "Low" ↔
      (highPriorityKeywords.any (fun keyword => strIncludes (jsToLowerCase question) keyword) ≠ true ∧
       (lowPriorityKeywords.any (fun keyword => strIncludes (jsToLowerCase question) keyword) = true ∨
        (highPriorityKeywords.any (fun keyword => strIncludes (jsToLowerCase (jsToString answer)) keyword) ≠ true ∧
         lowPriorityKeywords.any (fun keyword => strIncludes (jsToLowerCase (jsToString answer)) keyword) = true)))) ∧
    (determinePriority question answer = "Medium" ↔
      (highPriorityKeywords.any (fun keyword => strIncludes (jsToLowerCase question) keyword) ≠ true ∧
       lowPriorityKeywords.any (fun keyword => strIncludes (jsToLowerCase question) keyword) ≠ true ∧
       highPriorityKeywords.any (fun keyword => strIncludes (jsToLowerCase (jsToString answer)) keyword) ≠ true ∧
       lowPriorityKeywords.any (fun keyword => strIncludes (jsToLowerCase (jsToString answer)) keyword) ≠ true ∧
       isLongStringAnswer answer ≠ true ∧ isBigArrayAnswer answer ≠ true)) := by
  simp only [determinePriority]
  split_ifs with h1 h2 h3 h4 h5 h6 <;> simp_all

/-- Sample input for exercising the extractor: a valid response, an invalid
(null-answered) response, and another valid response. -/
def c1SampleResponses : List RawResponse :=
  [⟨"First question", Answer.str "yes", "text"⟩,
   ⟨"Second question", Answer.null, "text"⟩,
   ⟨"Third question", Answer.str "no", "text"⟩]

/-- C1: `extractRequirements` produces exactly one `RequirementItem` per
response satisfying `isValidResponse`, in input order; invalid responses
produce nothing and do not advance the counter, and the k-th produced item
(0-based index k) carries the id "REQ-" followed by k+1 zero-padded to 3
digits — dense and gapless over valid responses only. -/
theorem c1_requirements_numbering (responses : List RawResponse) (k : Nat) :
    extractRequirements responses =
      (List.enumFrom 1 (responses.filter (fun r => isValidResponse r.answer))).map
        (fun p => mkRequirement p.1 p.2) ∧
    (extractRequirements responses).length =
      (responses.filter (fun r => isValidResponse r.answer)).length ∧
    (k < (responses.filter (fun r => isValidResponse r.answer)).length →
      ((extractRequirements responses)[k]?.map RequirementItem.id) =
        some ("REQ-" ++ padStart (toString (k + 1)) 3 '0')) := by
  have hmain := extractRequirementsAux_eq responses 1
  refine ⟨hmain, ?_, ?_⟩
  · rw [extractRequirements, hmain]
    simp [List.enumFrom_length]
  · intro hk
    rw [extractRequirements, hmain]
    rw [List.getElem?_map, List.getElem?_enumFrom]
    have hsome : (responses.filter (fun r => isValidResponse r.answer))[k]? =
        some ((responses.filter (fun r => isValidResponse r.answer)).get ⟨k, hk⟩) :=
      List.getElem?_eq_getElem hk
    rw [hsome]
    simp [mkRequirement, Nat.add_comm]

/-- Witness for C1 at a concrete input: of the three sample responses the
middle one is invalid, so the second produced requirement (index 1) is built
from the third response and is numbered "REQ-002". -/
theorem c1_requirements_numbering_witness :
    1 < (c1SampleResponses.filter (fun r => isValidResponse r.answer)).length ∧
    ((extractRequirements c1SampleResponses)[1]?.map RequirementItem.id) =
      some ("REQ-" ++ padStart (toString 2) 3 '0') ∧
    ("REQ-" ++ padStart (toString 2) 3 '0') = "REQ-002" := by
  refine ⟨by decide, ?_, by decide⟩
  have h := (c1_requirements_numbering c1SampleResponses 1).2.2 (by decide)
  simpa using h

/-- The three fixed baseline acceptance criteria, in source order. -/
def baseCriteria : List String :=
  ["Requirement is clearly defined and testable",
   "Implementation meets specified functionality",
   "User acceptance testing passes successfully"]

/-- The type-specific acceptance-criteria group, as a standalone list. -/
def typeSpecificCriteria (answer : Answer) (questionType : String) : List String :=
  if questionType == "checkbox" && isArrayAnswer answer then
    (arrayElems answer).map (fun item => "System successfully supports: " ++ item) ++
      ["All selected options are fully functional"]
  else if questionType == "number" then
    ["Numeric value validation is implemented (" ++ jsToString answer ++ ")",
     "Input constraints are properly enforced"]
  else if questionType == "email" then
    ["Email format validation is implemented",
     "Invalid email addresses are rejected"]
  else if questionType == "date" then
    ["Date picker functionality is available",
     "Date format validation is implemented",
     "Invalid dates are handled appropriately"]
  else []

/-- The keyword-triggered acceptance-criteria group: security, performance
and integration fire independently, two lines each, in source order. -/
def keywordCriteria (question : String) : List String :=
  (if strIncludes (jsToLowerCase question) "security" then
    ["Security requirements are met and verified",
     "Access controls are properly implemented"]
   else []) ++
  (if strIncludes (jsToLowerCase question) "performance" then
    ["Performance benchmarks are met",
     "Load testing validates performance requirements"]
   else []) ++
  (if strIncludes (jsToLowerCase question) "integration" then
    ["Integration points are tested and functional",
     "Data flow between systems is verified"]
   else [])

/-- C7: `generateAcceptanceCriteria` always decomposes as the three fixed
baseline criteria first, then the type-specific group, then the
keyword-triggered group; for a checkbox array answer with no keyword
criteria the result is exactly baseline + one line per option + the closing
line (3 + n + 1 entries), and the concrete checkbox input `["X","Y"]` with
a keyword-free question yields 6 entries. -/
theorem c7_acceptance_criteria_structure (question : String) (answer : Answer)
    (questionType : String) (xs : List String) :
    generateAcceptanceCriteria question answer questionType =
      baseCriteria ++ typeSpecificCriteria answer questionType ++ keywordCriteria question ∧
    (generateAcceptanceCriteria question answer questionType).take 3 = baseCriteria ∧
    (keywordCriteria question = [] →
      generateAcceptanceCriteria question (Answer.arr xs) "checkbox" =
        baseCriteria ++ xs.map (fun item => "System successfully supports: " ++ item) ++
          ["All selected options are fully functional"] ∧
      (generateAcceptanceCriteria question (Answer.arr xs) "checkbox").length =
        3 + xs.length + 1) ∧
    (generateAcceptanceCriteria "Pick two options" (Answer.arr ["X", "Y"]) "checkbox").length = 6 := by
  have hdecomp : ∀ (a : Answer) (t : String),
      generateAcceptanceCriteria question a t =
        baseCriteria ++ typeSpecificCriteria a t ++ keywordCriteria question := by
    intro a t
    simp only [generateAcceptanceCriteria, baseCriteria, typeSpecificCriteria, keywordCriteria]
    split_ifs <;> simp [List.append_assoc]
  refine ⟨hdecomp answer questionType, ?_, ?_, by decide⟩
  · rw [hdecomp answer questionType]
    rw [List.append_assoc]
    exact List.take_left' rfl
  · intro hkw
    have h := hdecomp (Answer.arr xs) "checkbox"
    rw [hkw, List.append_nil] at h
    simp only [typeSpecificCriteria, isArrayAnswer, arrayElems] at h
    rw [if_pos (by rfl)] at h
    refine ⟨by simpa [List.append_assoc] using h, ?_⟩
    rw [h]
    simp [baseCriteria]
    omega

/-- Witness for C7 at a concrete input: the question "Pick two options"
triggers no keyword criteria, and the checkbox answer `["X","Y"]` yields
3 + 2 + 1 = 6 acceptance criteria. -/
theorem c7_acceptance_criteria_structure_witness :
    keywordCriteria "Pick two options" = [] ∧
    (generateAcceptanceCriteria "Pick two options" (Answer.arr ["X", "Y"]) "checkbox").length =
      3 + 2 + 1 := by
  refine ⟨by decide, ?_⟩
  have h := (c7_acceptance_criteria_structure "Pick two options" (Answer.arr ["X", "Y"])
    "checkbox" ["X", "Y"]).2.2.1 (by decide)
  simpa using h.2

set_option maxRecDepth 4000 in
/-- C8: the executive summary reports exact counts derived from the
requirements list passed in — the sentence it contains splices in the
list's length as the total, the number of distinct category values as the
category count, and the number of "High"-priority entries as the
high-priority count; for an empty requirements list it reports
"0 distinct requirements across 0 major categories". -/
theorem c8_executive_summary_counts (formTitle clientName : String)
    (requirements : List RequirementItem) (objectives : List String) :
    strIncludes (generateExecutiveSummary formTitle clientName requirements objectives)
      (". Through systematic requirements gathering and analysis, we have identified " ++
        toString requirements.length ++ " distinct requirements across " ++
        toString (jsSetDedup (requirements.map (fun r => r.category))).length ++
        " major categories. Of these, " ++
        toString (requirements.filter (fun r => r.priority == "High")).length ++
        " are classified as high priority and require immediate attention during the implementation phase.") = true ∧
    (jsSetDedup (requirements.map (fun r => r.category))).length =
      (requirements.map (fun r => r.category)).dedup.length ∧
    strIncludes (generateExecutiveSummary formTitle clientName [] objectives)
      "we have identified 0 distinct requirements across 0 major categories" = true := by
  have hmain : ∀ rs : List RequirementItem,
      strIncludes (generateExecutiveSummary formTitle clientName rs objectives)
        (". Through systematic requirements gathering and analysis, we have identified " ++
          toString rs.length ++ " distinct requirements across " ++
          toString (jsSetDedup (rs.map (fun r => r.category))).length ++
          " major categories. Of these, " ++
          toString (rs.filter (fun r => r.priority == "High")).length ++
          " are classified as high priority and require immediate attention during the implementation phase.") = true := by
    intro rs
    apply strIncludes_of_toList _
      ("This Business Requirements Document (BRD) presents a comprehensive analysis of the " ++
        formTitle ++ " project for " ++ clientName)
      _
      ("\n\n" ++ "The project aims to " ++
        jsToLowerCase (String.intercalate " and " (objectives.take 2)) ++
        ". This document serves as the foundation for system design, development planning, and project execution. All requirements have been analyzed for business value, technical feasibility, and implementation priority to ensure successful project delivery." ++
        "\n\n" ++ "Key focus areas include " ++
        String.intercalate ", " ((jsSetDedup (rs.map (fun r => r.category))).take 3) ++
        ", which represent the core functional domains of the proposed solution. The requirements outlined in this document will guide the development team in creating a solution that meets business objectives while maintaining technical excellence and user satisfaction.")
    simp [generateExecutiveSummary, String.toList, String.data_append, List.append_assoc]
  refine ⟨hmain requirements, length_jsSetDedup_eq_dedup _, ?_⟩
  exact strIncludes_trans (hmain []) (by decide)

/-- C9: the analysis facade is deterministic and stateless across calls —
starting from any state of the singleton's static field, obtaining the
instance and analyzing, then obtaining the instance again (through the
possibly-updated static field) and analyzing the same input, yields results
equal in every field; the only mutable state (the static instance field)
cannot influence the result because instances carry no data. -/
theorem c9_facade_deterministic (s0 : AIServiceState) (data : AIAnalysisRequest) :
    analyzeBRD (getInstance s0).2 data = analyzeBRD (getInstance (getInstance s0).1).2 data ∧
    (analyzeBRD (getInstance s0).2 data).executiveSummary =
      (analyzeBRD (getInstance (getInstance s0).1).2 data).executiveSummary ∧
    (analyzeBRD (getInstance s0).2 data).projectOverview =
      (analyzeBRD (getInstance (getInstance s0).1).2 data).projectOverview ∧
    (analyzeBRD (getInstance s0).2 data).businessObjectives =
      (analyzeBRD (getInstance (getInstance s0).1).2 data).businessObjectives ∧
    (analyzeBRD (getInstance s0).2 data).stakeholders =
      (analyzeBRD (getInstance (getInstance s0).1).2 data).stakeholders ∧
    (analyzeBRD (getInstance s0).2 data).requirements =
      (analyzeBRD (getInstance (getInstance s0).1).2 data).requirements ∧
    (analyzeBRD (getInstance s0).2 data).assumptions =
      (analyzeBRD (getInstance (getInstance s0).1).2 data).assumptions ∧
    (analyzeBRD (getInstance s0).2 data).constraints =
      (analyzeBRD (getInstance (getInstance s0).1).2 data).constraints ∧
    (analyzeBRD (getInstance s0).2 data).risks =
      (analyzeBRD (getInstance (getInstance s0).1).2 data).risks ∧
    (analyzeBRD (getInstance s0).2 data).successCriteria =
      (analyzeBRD (getInstance (getInstance s0).1).2 data).successCriteria :=
  ⟨rfl, rfl, rfl, rfl, rfl, rfl, rfl, rfl, rfl, rfl⟩

/-- C10: `identifyBusinessObjectives` returns a duplicate-free list in a
deterministic order — the matched themes' canned sentences appear exactly in
the fixed table enumeration order (the final `[...new Set(...)]` step is an
order-preserving no-op), and when no theme matches the three default
objectives appear in their fixed listed order. -/
theorem c10_objectives_nodup_order (responses : List RawResponse) (formTitle : String) :
    identifyBusinessObjectives responses formTitle =
      (if ((objectiveKeywords.filter
            (fun p => strIncludes (objectivesAllText responses formTitle) p.1)).map
              (fun p => p.2)).length = 0 then
        defaultObjectives
      else
        (objectiveKeywords.filter
          (fun p => strIncludes (objectivesAllText responses formTitle) p.1)).map
            (fun p => p.2)) ∧
    (identifyBusinessObjectives responses formTitle).Nodup := by
  have hnodup_m : ((objectiveKeywords.filter
      (fun p => strIncludes (objectivesAllText responses formTitle) p.1)).map
        (fun p => p.2)).Nodup := by
    have hsub : ((objectiveKeywords.filter
        (fun p => strIncludes (objectivesAllText responses formTitle) p.1)).map
          (fun p => p.2)).Sublist (objectiveKeywords.map (fun p => p.2)) :=
      List.Sublist.map _ (List.filter_sublist _)
    exact List.Nodup.sublist hsub (by decide)
  have heq : identifyBusinessObjectives responses formTitle =
      (if ((objectiveKeywords.filter
            (fun p => strIncludes (objectivesAllText responses formTitle) p.1)).map
              (fun p => p.2)).length = 0 then
        defaultObjectives
      else
        (objectiveKeywords.filter
          (fun p => strIncludes (objectivesAllText responses formTitle) p.1)).map
            (fun p => p.2)) := by
    simp only [identifyBusinessObjectives]
    by_cases hm : ((objectiveKeywords.filter
        (fun p => strIncludes (objectivesAllText responses formTitle) p.1)).map
          (fun p => p.2)).length = 0
    · have hnil : ((objectiveKeywords.filter
          (fun p => strIncludes (objectivesAllText responses formTitle) p.1)).map
            (fun p => p.2)) = [] := List.length_eq_zero.mp hm
      rw [hnil]
      simp [jsSetDedup_eq_self (show defaultObjectives.Nodup by decide)]
    · have hbeq : (((objectiveKeywords.filter
          (fun p => strIncludes (objectivesAllText responses formTitle) p.1)).map
            (fun p => p.2)).length == 0) = false := by
        simpa using hm
      rw [hbeq]
      simp only [Bool.false_eq_true, if_false, if_neg hm]
      exact jsSetDedup_eq_self hnodup_m
  refine ⟨heq, ?_⟩
  rw [heq]
  by_cases hm : ((objectiveKeywords.filter
      (fun p => strIncludes (objectivesAllText responses formTitle) p.1)).map
        (fun p => p.2)).length = 0
  · rw [if_pos hm]; decide
  · rw [if_neg hm]; exact hnodup_m
